import Mathlib

/-!
Verification of the RAII / smart-pointer examples of the blog repository.

The C++ sources embedded here:
* `modern-cpp/src/naive.hpp`, `NaiveFile` implementation (trace-printing
  variant shown in `modern-cpp/README.md`): constructor opens a file and
  prints, destructor closes when `fd >= 0` and reports a failed `close`
  on `stderr` via `strerror(errno)`.
* `modern-cpp/src/safe.cpp`: `SafeFile` constructor and destructor.
* `modern-cpp/README.md` / `FileWrapper` implementation: rule-of-five
  wrapper with deleted copies and move operations that hand the
  descriptor over and leave `-1` behind.
* `smart-ptr/src/mutation.hpp`: `count_bad` (mutating, receives the
  string through a `const std::shared_ptr<std::string> &`) and
  `count_good` (pure, receives `const std::string &`).
* The `ConfigWatcher` example: a `shared_ptr<Config>` kept privately
  while `get_config` hands out aliases typed `shared_ptr<const Config>`.

The OS side (`open`, `close`, `read`, `errno`, `strerror`) is modelled
explicitly: `open` hands out fresh descriptors, `close` succeeds exactly
on a currently open descriptor and otherwise fails with `EBADF`.
Executions are recorded as event traces (stdout line, stderr line,
`open` syscall, `close` syscall), and the set of live wrapper objects is
snapshotted after every step so that aliasing of descriptors between
simultaneously live wrappers can be observed.
-/

/-- The `errno` value `EBADF`, the error a second `close` of the same
descriptor produces. -/
def EBADF : Nat := 9

/-- Model of libc `strerror` for the errno values that can occur here. -/
def strerror (e : Nat) : String :=
  if e = EBADF then "Bad file descriptor" else "Unknown error"

/-- Model of the kernel file-descriptor table: the set of open
descriptors and the next fresh descriptor to hand out.  The example
programs start with 0, 1 and 2 taken by the standard streams, so the
first descriptor handed out is 3 (as in the README trace). -/
structure OS where
  openFiles : List Int
  nextFd : Int
deriving DecidableEq

def OS.init : OS := ⟨[], 3⟩

/-- Model of `open(path, O_RDONLY)`: returns a fresh descriptor and
marks it open.  (The example runs documented in the README are the ones
where `open` succeeds.) -/
def osOpen (os : OS) : OS × Int :=
  (⟨os.openFiles ++ [os.nextFd], os.nextFd + 1⟩, os.nextFd)

/-- Model of `close(fd)`: returns the new table, the return value and
`errno`.  Closing an open descriptor succeeds (returns 0) and removes
it; closing anything else fails with `-1` and `errno = EBADF`. -/
def osClose (os : OS) (fd : Int) : OS × Int × Nat :=
  if fd ∈ os.openFiles then
    (⟨os.openFiles.erase fd, os.nextFd⟩, 0, 0)
  else
    (os, -1, EBADF)

/-- Observable events of a run: a line printed on stdout, a line printed
on stderr, an `open` syscall returning a descriptor, and a `close`
syscall on a descriptor together with its return value. -/
inductive Event where
  | out : String → Event
  | err : String → Event
  | sysOpen : Int → Event
  | sysClose : Int → Int → Event
deriving DecidableEq

/-- `NaiveFile::NaiveFile(const std::string &path)` (trace-printing
variant): `fd = open(path.c_str(), O_RDONLY); printf("(fd %i) open %s\n", fd, path.c_str());` -/
def naiveConstructor (os : OS) (path : String) : OS × Int × List Event :=
  let r := osOpen os
  (r.1, r.2, [Event.sysOpen r.2,
              Event.out ("(fd " ++ toString r.2 ++ ") open " ++ path)])

/-- `NaiveFile::~NaiveFile()` (trace-printing variant): when `fd >= 0`
it prints, calls `close(fd)` and reports a failure on stderr with
`strerror(errno)`. -/
def naiveDestructor (os : OS) (fd : Int) : OS × List Event :=
  if fd ≥ 0 then
    let r := osClose os fd
    if r.2.1 < 0 then
      (r.1, [Event.out ("(fd " ++ toString fd ++ ") ~NaiveFile closing"),
             Event.sysClose fd r.2.1,
             Event.err ("  (fd " ++ toString fd ++ ") Couldn't close file: '"
                        ++ strerror r.2.2 ++ "'")])
    else
      (r.1, [Event.out ("(fd " ++ toString fd ++ ") ~NaiveFile closing"),
             Event.sysClose fd r.2.1])
  else
    (os, [])

/-- `SafeFile::SafeFile(const std::string &path)` from
`modern-cpp/src/safe.cpp`: `fd = open(path.c_str(), O_RDONLY);` (no
printing). -/
def safeConstructor (os : OS) : OS × Int × List Event :=
  let r := osOpen os
  (r.1, r.2, [Event.sysOpen r.2])

/-- `SafeFile::~SafeFile()` from `modern-cpp/src/safe.cpp`. -/
def safeDestructor (os : OS) (fd : Int) : OS × List Event :=
  if fd ≥ 0 then
    let r := osClose os fd
    if r.2.1 < 0 then
      (r.1, [Event.out "~SafeFile closing file",
             Event.sysClose fd r.2.1,
             Event.err ("  Couldn't close file: '" ++ strerror r.2.2 ++ "'")])
    else
      (r.1, [Event.out "~SafeFile closing file",
             Event.sysClose fd r.2.1])
  else
    (os, [])

/-- `FileWrapper` from `modern-cpp/src/final.hpp`: one private member
`int fd{-1}`. -/
structure FileWrapper where
  fd : Int
deriving DecidableEq

/-- `FileWrapper::FileWrapper(FileWrapper &&wrapper) : fd(wrapper.fd) { wrapper.fd = -1; }`
Returns the constructed object together with the moved-from object. -/
def FileWrapper.moveConstruct (src : FileWrapper) : FileWrapper × FileWrapper :=
  ({ fd := src.fd }, { fd := -1 })

/-- `FileWrapper::operator=(FileWrapper &&wrapper)`:
`this->fd = wrapper.fd; wrapper.fd = -1;`  Returns the assigned-to
object together with the moved-from object. -/
def FileWrapper.moveAssign (dst src : FileWrapper) : FileWrapper × FileWrapper :=
  ({ dst with fd := src.fd }, { fd := -1 })

/-- `FileWrapper::FileWrapper(const std::string &path)`:
`fd = open(path.c_str(), O_RDONLY);` (no printing). -/
def fileWrapperConstructor (os : OS) : OS × Int × List Event :=
  let r := osOpen os
  (r.1, r.2, [Event.sysOpen r.2])

/-- `FileWrapper::~FileWrapper()` from the README: when `fd >= 0` it
calls `close(fd)` and reports a failure on stderr. -/
def fileWrapperDestructor (os : OS) (fd : Int) : OS × List Event :=
  if fd ≥ 0 then
    let r := osClose os fd
    if r.2.1 < 0 then
      (r.1, [Event.sysClose fd r.2.1,
             Event.err ("  Couldn't close file: '" ++ strerror r.2.2 ++ "'")])
    else
      (r.1, [Event.sysClose fd r.2.1])
  else
    (os, [])

/-- Execution state of an example run: the OS descriptor table, the
descriptors held by the currently live wrapper objects (in construction
order), the event trace so far, and a snapshot of the live list after
every step. -/
structure Exec where
  os : OS
  live : List Int
  trace : List Event
  snaps : List (List Int)

def Exec.init : Exec := ⟨OS.init, [], [], [[]]⟩

/-- Advance an execution by one step: new live set, new OS state, the
events the step emitted; the new live set is snapshotted. -/
def Exec.push (e : Exec) (live : List Int) (os : OS) (ev : List Event) : Exec :=
  ⟨os, live, e.trace ++ ev, e.snaps ++ [live]⟩

/-- A `printf` statement of `main`. -/
def stepPrint (e : Exec) (s : String) : Exec :=
  e.push e.live e.os [Event.out s]

/-- `NaiveFile naive_file = NaiveFile(path);` -/
def stepNaiveConstruct (e : Exec) (path : String) : Exec × Int :=
  let r := naiveConstructor e.os path
  (e.push (e.live ++ [r.2.1]) r.1 r.2.2, r.2.1)

/-- The compiler-generated `NaiveFile` copy (pass-by-value parameter or
`auto file2 = naive_file;`): the new object holds the same `fd`. -/
def stepNaiveCopy (e : Exec) (fd : Int) : Exec :=
  e.push (e.live ++ [fd]) e.os []

/-- Destruction of a `NaiveFile` object holding `fd` (end of scope or
end of the by-value callee). -/
def stepNaiveDestroy (e : Exec) (fd : Int) : Exec :=
  let r := naiveDestructor e.os fd
  e.push (e.live.erase fd) r.1 r.2

/-- `SafeFile safe_file = SafeFile(path);` -/
def stepSafeConstruct (e : Exec) : Exec × Int :=
  let r := safeConstructor e.os
  (e.push (e.live ++ [r.2.1]) r.1 r.2.2, r.2.1)

/-- Destruction of a `SafeFile` object holding `fd`. -/
def stepSafeDestroy (e : Exec) (fd : Int) : Exec :=
  let r := safeDestructor e.os fd
  e.push (e.live.erase fd) r.1 r.2

/-- `FileWrapper file = FileWrapper(path);` -/
def stepFileConstruct (e : Exec) : Exec × Int :=
  let r := fileWrapperConstructor e.os
  (e.push (e.live ++ [r.2.1]) r.1 r.2.2, r.2.1)

/-- Destruction of a `FileWrapper` object holding `fd`. -/
def stepFileDestroy (e : Exec) (fd : Int) : Exec :=
  let r := fileWrapperDestructor e.os fd
  e.push (e.live.erase fd) r.1 r.2

/-- The `NaiveFile` demonstration of `modern-cpp/README.md` (the block
whose trace output the README documents, with the `NaiveFile`
implementation of the trace-printing variant):

    NaiveFile naive_file = NaiveFile(filename);
    accidental_copy(naive_file);   // copy 1: pass by value,
                                   // the copy dies inside the call
    auto file2 = naive_file;       // copy 2
    // scope ends: file2 is destroyed, then naive_file

with `filename = __FILE__ = "main.cpp"`. -/
def naiveDemo : Exec :=
  let e := Exec.init
  let r := stepNaiveConstruct e "main.cpp"
  let e := r.1
  let naiveFd := r.2
  let e := stepNaiveCopy e naiveFd
  let e := stepNaiveDestroy e naiveFd
  let e := stepNaiveCopy e naiveFd
  let e := stepNaiveDestroy e naiveFd
  let e := stepNaiveDestroy e naiveFd
  e

/-- The `SafeFile` block of `main` in `modern-cpp/src`: print the
header, construct, and let the object go out of scope (the copies are
commented out because they do not compile). -/
def safeDemo : Exec :=
  let e := Exec.init
  let e := stepPrint e "Safe file wrapper"
  let r := stepSafeConstruct e
  let e := stepSafeDestroy r.1 r.2
  e

/-- The `FileWrapper` block of `main` in `modern-cpp/src`: print the
header, construct, and let the object go out of scope. -/
def fileDemo : Exec :=
  let e := Exec.init
  let e := stepPrint e "File file wrapper"
  let r := stepFileConstruct e
  let e := stepFileDestroy r.1 r.2
  e

/-- The descriptors returned by the `open` calls of a trace. -/
def openedFds (tr : List Event) : List Int :=
  tr.filterMap (fun ev => match ev with
    | Event.sysOpen fd => some fd
    | _ => none)

/-- The descriptors passed to the `close` calls of a trace, in order. -/
def closesFd (tr : List Event) : List Int :=
  tr.filterMap (fun ev => match ev with
    | Event.sysClose fd _ => some fd
    | _ => none)

/-- The `(descriptor, return value)` pairs of the `close` calls of a
trace, in order. -/
def closeCallsRet (tr : List Event) : List (Int × Int) :=
  tr.filterMap (fun ev => match ev with
    | Event.sysClose fd ret => some (fd, ret)
    | _ => none)

/-- How many times `close` is invoked on `fd` in a trace. -/
def closeCount (tr : List Event) (fd : Int) : Nat :=
  (closesFd tr).count fd

/-- Whether every descriptor `>= 0` returned by `open` in a trace has
`close` invoked on it exactly once. -/
def closedExactlyOnce (tr : List Event) : Bool :=
  (openedFds tr).all (fun fd => if 0 ≤ fd then closeCount tr fd == 1 else true)

/-- The stderr lines of a trace, in order. -/
def errLines (tr : List Event) : List String :=
  tr.filterMap (fun ev => match ev with
    | Event.err s => some s
    | _ => none)

/-- The console output of a trace: the stdout and stderr events, in
order, with the syscalls dropped. -/
def console (tr : List Event) : List Event :=
  tr.filter (fun ev => match ev with
    | Event.out _ => true
    | Event.err _ => true
    | _ => false)

/-- `true` when a list contains no duplicates. -/
def nodupB : List Int → Bool
  | [] => true
  | x :: xs => !(xs.contains x) && nodupB xs

/-- Whether at every snapshot the live wrapper objects hold pairwise
distinct descriptors (among descriptors `>= 0`). -/
def noAliasedLive (snaps : List (List Int)) : Bool :=
  snaps.all (fun live => nodupB (live.filter (fun fd => 0 ≤ fd)))

/-- The shared `read_1024` body of `NaiveFile`, `SafeFile` and
`FileWrapper` (identical in all three sources):

    if (fd < 0) return "";
    const int nbytes = 1024;
    char buf[nbytes] = {};
    int n = ::read(fd, buf, nbytes);
    if (n <= 0) return "";
    return std::string(buf, n);

`readRet` is the return value of the `::read` syscall and `readData`
the bytes it wrote into the buffer (POSIX: at most `nbytes` bytes, and
on a return value `n > 0` exactly `n` bytes).  `buf` is the 1024-byte
zero-initialised buffer after the syscall wrote into its front. -/
def read_1024 (fd : Int) (readRet : Int) (readData : List Char) : List Char :=
  if fd < 0 then
    []
  else
    let nbytes : Nat := 1024
    let buf := readData.take nbytes ++ List.replicate (nbytes - readData.length) (Char.ofNat 0)
    if readRet ≤ 0 then
      []
    else
      buf.take readRet.toNat

/-- `count_bad` from `smart-ptr/src/mutation.hpp`: iterates over the
string held behind the `const std::shared_ptr<std::string> &`, counts
the occurrences of `d` and overwrites each occurrence with `'*'`.  The
result is the returned count together with the string the caller's
shared pointer holds after the call. -/
def count_bad : List Char → Char → Nat × List Char
  | [], _ => (0, [])
  | c :: s, d =>
    let r := count_bad s d
    if c = d then
      (r.1 + 1, '*' :: r.2)
    else
      (r.1, c :: r.2)

/-- `count_good` from `smart-ptr/src/mutation.hpp`: iterates over the
string received as `const std::string &` and counts the occurrences of
`d`; the loop only reads, so the function is pure. -/
def count_good : List Char → Char → Nat
  | [], _ => 0
  | c :: s, d => (if c = d then 1 else 0) + count_good s d

/-- `Config` from the smart-ptr article's `ConfigWatcher` example. -/
structure Config where
  hostname : String
  port : Int
  url : String
deriving DecidableEq

/-- The heap cells reachable through shared pointers; a
`shared_ptr<Config>` is an index into this store. -/
structure Store where
  cells : List Config
deriving DecidableEq

/-- Dereference a shared pointer. -/
def Store.get (st : Store) (p : Nat) : Option Config :=
  st.cells.get? p

/-- Overwrite the cell a shared pointer designates. -/
def Store.set (st : Store) (p : Nat) (c : Config) : Store :=
  ⟨st.cells.set p c⟩

/-- `ConfigWatcher`: privately holds a `shared_ptr<Config>`. -/
structure ConfigWatcher where
  config : Nat
deriving DecidableEq

/-- `ConfigWatcher()`: allocates
`make_shared<Config>(Config{"localhost", 80, "/index.html"})`. -/
def ConfigWatcher.construct (st : Store) : Store × ConfigWatcher :=
  (⟨st.cells ++ [⟨"localhost", 80, "/index.html"⟩]⟩, ⟨st.cells.length⟩)

/-- `get_config()`: `return config;` — hands out the watcher's own
pointer (typed `shared_ptr<const Config>`), not a copy of the object. -/
def ConfigWatcher.get_config (w : ConfigWatcher) : Nat :=
  w.config

/-- `update_config()`: `config->port += 1;`. -/
def ConfigWatcher.update_config (st : Store) (w : ConfigWatcher) : Store :=
  match st.get w.config with
  | some c => st.set w.config { c with port := c.port + 1 }
  | none => st

/-- The `ConfigWatcher` part of `main` in the smart-ptr example:
construct the watcher (on an empty heap), obtain
`config = watcher.get_config()`, then run `watcher.update_config()`. -/
def watcherDemoInit : Store × ConfigWatcher :=
  ConfigWatcher.construct ⟨[]⟩

def watcherDemoPtr : Nat :=
  watcherDemoInit.2.get_config

def watcherDemoStoreAfter : Store :=
  ConfigWatcher.update_config watcherDemoInit.1 watcherDemoInit.2

/-- The 1024-byte buffer after `::read` wrote `readData` into its
front is always exactly 1024 bytes long. -/
lemma readBuf_length (readData : List Char) :
    (readData.take 1024 ++ List.replicate (1024 - readData.length) (Char.ofNat 0)).length
      = 1024 := by
  simp [List.length_take]
  omega

/-- Claim C1, as stated, is false on the code: in the `NaiveFile`
demonstration the single descriptor returned by `open` (fd 3) has
`close` invoked on it three times — once by the pass-by-value copy,
once by `file2`, once by `naive_file` — not exactly once. -/
theorem naive_demo_double_close :
    closedExactlyOnce naiveDemo.trace = false
    ∧ openedFds naiveDemo.trace = [3]
    ∧ closeCount naiveDemo.trace 3 = 3 := by
  refine ⟨by decide, by decide, by decide⟩

/-- Claim C1 (amended): in the `SafeFile` and `FileWrapper` examples
every descriptor returned by `open` with value `>= 0` has `close`
invoked on it exactly once; in the `NaiveFile` example the descriptor
is closed three times — once per wrapper object holding it — which is
the defect the example demonstrates. -/
theorem close_exactly_once_amended :
    closedExactlyOnce safeDemo.trace = true
    ∧ closedExactlyOnce fileDemo.trace = true
    ∧ closeCount naiveDemo.trace 3 = 3
    ∧ closesFd naiveDemo.trace = [3, 3, 3] := by
  refine ⟨by decide, by decide, by decide, by decide⟩

/-- Claim C2: each wrapper destructor (`NaiveFile`, `SafeFile`,
`FileWrapper`) calls `close`, exactly once and on its own stored
descriptor, if and only if that descriptor is `>= 0`; in particular
`close` is never invoked with a negative descriptor. -/
theorem destructors_close_iff_nonneg (os : OS) (fd : Int) :
    closesFd (naiveDestructor os fd).2 = (if fd ≥ 0 then [fd] else [])
    ∧ closesFd (safeDestructor os fd).2 = (if fd ≥ 0 then [fd] else [])
    ∧ closesFd (fileWrapperDestructor os fd).2 = (if fd ≥ 0 then [fd] else []) := by
  by_cases hfd : fd ≥ 0 <;>
    by_cases hcl : (osClose os fd).2.1 < 0 <;>
      simp [naiveDestructor, safeDestructor, fileWrapperDestructor, closesFd, hfd, hcl]

/-- Claim C3: `FileWrapper` move construction and move assignment
transfer ownership: the destination ends up holding the source's
previous descriptor, the moved-from object holds `-1`, and destroying
the moved-from object performs no `close` and leaves the descriptor
table untouched. -/
theorem fileWrapper_move_transfers (os : OS) (src dst : FileWrapper) :
    (FileWrapper.moveConstruct src).1.fd = src.fd
    ∧ (FileWrapper.moveConstruct src).2.fd = -1
    ∧ (FileWrapper.moveAssign dst src).1.fd = src.fd
    ∧ (FileWrapper.moveAssign dst src).2.fd = -1
    ∧ fileWrapperDestructor os (FileWrapper.moveConstruct src).2.fd = (os, [])
    ∧ fileWrapperDestructor os (FileWrapper.moveAssign dst src).2.fd = (os, []) := by
  refine ⟨rfl, rfl, rfl, rfl, ?_, ?_⟩ <;>
    simp [fileWrapperDestructor, FileWrapper.moveConstruct, FileWrapper.moveAssign]

/-- Claim C4: `count_bad` returns the number of occurrences of `d` in
the string behind the shared pointer and overwrites each occurrence
with a star, so after the call the caller's string is the star-mapped
string — the mutation the article demonstrates on
`"Hello shared world!"`, which becomes `"He**o shared wor*d!"` with
count 3. -/
theorem count_bad_counts_and_mutates :
    (∀ (s : List Char) (d : Char),
      (count_bad s d).1 = s.count d
      ∧ (count_bad s d).2 = s.map (fun c => if c = d then '*' else c))
    ∧ count_bad "Hello shared world!".toList 'l' = (3, "He**o shared wor*d!".toList)
    ∧ (count_bad "Hello shared world!".toList 'l').2 ≠ "Hello shared world!".toList := by
  refine ⟨?_, by decide, by decide⟩
  intro s d
  induction s with
  | nil => simp [count_bad]
  | cons c s ih =>
    by_cases h : c = d <;>
      simp [count_bad, h, ih.1, ih.2, List.count_cons]

/-- Claim C5: the only error reporting in the examples is the
destructors' stderr message on a failed `close`: each destructor
writes one stderr line, built around `strerror(errno)`, exactly when
its descriptor is `>= 0` and `close` fails, and returns normally;
the constructors write nothing to stderr, and in the three example
runs the only stderr lines are the two failed-close reports of the
`NaiveFile` demonstration. -/
theorem error_reporting_only_failed_close (os : OS) (fd : Int) (path : String) :
    errLines (naiveDestructor os fd).2 =
      (if fd ≥ 0 then
        if (osClose os fd).2.1 < 0 then
          ["  (fd " ++ toString fd ++ ") Couldn't close file: '"
            ++ strerror (osClose os fd).2.2 ++ "'"]
        else []
      else [])
    ∧ errLines (safeDestructor os fd).2 =
      (if fd ≥ 0 then
        if (osClose os fd).2.1 < 0 then
          ["  Couldn't close file: '" ++ strerror (osClose os fd).2.2 ++ "'"]
        else []
      else [])
    ∧ errLines (fileWrapperDestructor os fd).2 =
      (if fd ≥ 0 then
        if (osClose os fd).2.1 < 0 then
          ["  Couldn't close file: '" ++ strerror (osClose os fd).2.2 ++ "'"]
        else []
      else [])
    ∧ errLines (naiveConstructor os path).2.2 = []
    ∧ errLines (safeConstructor os).2.2 = []
    ∧ errLines (fileWrapperConstructor os).2.2 = []
    ∧ errLines naiveDemo.trace =
        ["  (fd 3) Couldn't close file: 'Bad file descriptor'",
         "  (fd 3) Couldn't close file: 'Bad file descriptor'"]
    ∧ errLines safeDemo.trace = []
    ∧ errLines fileDemo.trace = [] := by
  refine ⟨?_, ?_, ?_, rfl, rfl, rfl, by decide, by decide, by decide⟩ <;>
    by_cases hfd : fd ≥ 0 <;>
      by_cases hcl : (osClose os fd).2.1 < 0 <;>
        simp [naiveDestructor, safeDestructor, fileWrapperDestructor, errLines, hfd, hcl]

/-- Claim C6, as stated, is false on the code: in the `NaiveFile`
demonstration there are points (during `accidental_copy` and while
`file2` is alive) where two live wrapper objects hold the same
descriptor 3. -/
theorem naive_demo_aliased_descriptor :
    noAliasedLive naiveDemo.snaps = false
    ∧ [3, 3] ∈ naiveDemo.snaps := by
  refine ⟨by decide, by decide⟩

/-- Claim C6 (amended): in the `SafeFile` and `FileWrapper` examples no
two simultaneously live wrapper objects ever hold the same descriptor
`>= 0`; in the `NaiveFile` example the implicit copies make two live
wrappers hold descriptor 3 at once — the aliasing the example
demonstrates. -/
theorem single_owner_amended :
    noAliasedLive safeDemo.snaps = true
    ∧ noAliasedLive fileDemo.snaps = true
    ∧ [3, 3] ∈ naiveDemo.snaps := by
  refine ⟨by decide, by decide, by decide⟩

/-- Claim C7: the `NaiveFile` demonstration produces exactly the
console output documented in the README — the open line, then three
destructor runs on descriptor 3 of which the first `close` succeeds
and the second and third fail, each failure reported on stderr with
`Bad file descriptor`. -/
theorem naive_demo_output_documented :
    console naiveDemo.trace =
      [Event.out "(fd 3) open main.cpp",
       Event.out "(fd 3) ~NaiveFile closing",
       Event.out "(fd 3) ~NaiveFile closing",
       Event.err "  (fd 3) Couldn't close file: 'Bad file descriptor'",
       Event.out "(fd 3) ~NaiveFile closing",
       Event.err "  (fd 3) Couldn't close file: 'Bad file descriptor'"]
    ∧ closeCallsRet naiveDemo.trace = [(3, 0), (3, -1), (3, -1)] := by
  refine ⟨by decide, by decide⟩

/-- Claim C8: `read_1024` always returns at most 1024 characters; it
returns the empty string when the descriptor is negative or when the
`read` syscall returns zero or a negative count, and otherwise (with
POSIX-conforming `read` behaviour: return value equals the number of
bytes written, at most the 1024 requested) returns exactly the bytes
`read` produced. -/
theorem read_1024_spec (fd readRet : Int) (readData : List Char) :
    (read_1024 fd readRet readData).length ≤ 1024
    ∧ (fd < 0 → read_1024 fd readRet readData = [])
    ∧ (readRet ≤ 0 → read_1024 fd readRet readData = [])
    ∧ (0 ≤ fd → 0 < readRet → readRet.toNat = readData.length →
        readData.length ≤ 1024 → read_1024 fd readRet readData = readData) := by
  refine ⟨?_, ?_, ?_, ?_⟩
  · by_cases hfd : fd < 0
    · simp [read_1024, hfd]
    · by_cases hr : readRet ≤ 0
      · simp [read_1024, hfd, hr]
      · simp only [read_1024, if_neg hfd, if_neg hr]
        rw [List.length_take, readBuf_length readData]
        exact Nat.min_le_right _ _
  · intro hfd
    simp [read_1024, hfd]
  · intro hr
    by_cases hfd : fd < 0 <;> simp [read_1024, hfd, hr]
  · intro hfd hr hn hlen
    have hfd' : ¬ fd < 0 := by omega
    have hr' : ¬ readRet ≤ 0 := by omega
    simp only [read_1024, if_neg hfd', if_neg hr']
    rw [hn, List.take_of_length_le hlen]
    exact List.take_left readData _

/-- Witness for `read_1024_spec` at concrete inputs: a successful read
of three bytes on descriptor 0 returns exactly those bytes, and a
negative descriptor yields the empty string. -/
theorem read_1024_spec_witness :
    read_1024 0 3 ['a', 'b', 'c'] = ['a', 'b', 'c']
    ∧ read_1024 (-1) 3 ['a', 'b', 'c'] = [] :=
  ⟨(read_1024_spec 0 3 ['a', 'b', 'c']).2.2.2 (by decide) (by decide) (by decide)
      (by decide),
   (read_1024_spec (-1) 3 ['a', 'b', 'c']).2.1 (by decide)⟩

/-- Claim C9: the pure `count_good` agrees with the mutating
`count_bad` on the returned count (applied to the same string
content); `count_good` only reads its argument, so the caller's string
is untouched. -/
theorem count_good_eq_count_bad (s : List Char) (d : Char) :
    count_good s d = (count_bad s d).1 := by
  induction s with
  | nil => rfl
  | cons c s ih =>
    by_cases h : c = d <;> simp [count_good, count_bad, h, ih, Nat.add_comm]

/-- Claim C10: `update_config` bumps the port by exactly one and leaves
hostname and url unchanged, and because `get_config` returns the
watcher's own pointer (an alias, not a copy) the change is visible
through every pointer `get_config` previously handed out. -/
theorem update_config_bumps_port (st : Store) (w : ConfigWatcher) (c : Config)
    (h : st.get w.get_config = some c) :
    w.get_config = w.config
    ∧ (ConfigWatcher.update_config st w).get w.get_config
        = some ⟨c.hostname, c.port + 1, c.url⟩ := by
  refine ⟨rfl, ?_⟩
  have hc : st.get w.config = some c := h
  simp only [ConfigWatcher.update_config, ConfigWatcher.get_config, hc]
  have hlt : w.config < st.cells.length := by
    have := hc
    simp only [Store.get, List.get?_eq_some] at this
    obtain ⟨hh, _⟩ := this
    exact hh
  simp [Store.get, Store.set, List.getElem?_set_eq_of_lt _ hlt]

/-- Witness for `update_config_bumps_port`: on the watcher of the
example `main`, the configuration starts at port 80 and the pointer
obtained from `get_config` before the update reads port 81
afterwards. -/
theorem update_config_bumps_port_witness :
    watcherDemoInit.2.get_config = watcherDemoInit.2.config
    ∧ (ConfigWatcher.update_config watcherDemoInit.1 watcherDemoInit.2).get
        watcherDemoInit.2.get_config
      = some ⟨"localhost", 81, "/index.html"⟩ :=
  update_config_bumps_port watcherDemoInit.1 watcherDemoInit.2
    ⟨"localhost", 80, "/index.html"⟩ (by decide)
